import Mathlib

/-!
Verification of the autowebprompt task-execution engine against its
natural-language specification.

The development shallowly embeds the Python source:

* `TaskStatus` / `AgentState` mirror `src/autowebprompt/agents/base.py`.
* `CompletionLogger` mirrors `src/autowebprompt/engine/completion_logger.py`;
  the on-disk JSON file is modelled as a `disk` field holding the last
  session record written by `_write_to_disk`.
* The runner's two-tier retry loop mirrors `run_automation` in
  `src/autowebprompt/engine/runner.py`; each attempt's browser/agent
  behaviour is an oracle (`AttemptEnv`) scripted per iteration.
* The ChatGPT and Claude agents' `navigate_to_new_chat` and
  `wait_for_response` mirror `src/autowebprompt/agents/chatgpt.py` and
  `src/autowebprompt/agents/claude.py`, with page-state polls supplied by
  scripted sample streams and wall-clock time carried explicitly in seconds.
-/

namespace AutoWebPrompt

/-- `TaskStatus` from `agents/base.py`: classifies both agent and pipeline
outcomes of one attempt. -/
inductive TaskStatus where
  | SUCCESS
  | TIMEOUT
  | PROMPT_FAILED
  | DOWNLOAD_FAILED
  | FILE_CORRUPTED
  | MISSING_SHEETS
  | NAVIGATION_FAILED
  | AUTH_FAILED
  | UPLOAD_FAILED
  | RATE_LIMITED
  | UNKNOWN
  deriving DecidableEq, Repr

/-- `AgentState` from `agents/base.py`: the detector's single-shot
classification of the current page state. -/
inductive AgentState where
  | RUNNING
  | READY
  | RATE_LIMITED
  | AUTH_REQUIRED
  | ERROR
  | UNKNOWN
  deriving DecidableEq, Repr

/-! ## Completion logger (`engine/completion_logger.py`)

Timestamps are seconds (`Nat`); `datetime.now()` values are supplied as
explicit `now` arguments.  A prompt/task entry mirrors the Python dicts
built in `start_prompt` / `start_task`. -/

/-- One entry of a task's `prompts` list (`start_prompt` dict). -/
structure PromptEntry where
  promptText : String
  startTime : Nat
  endTime : Option Nat
  success : Option Bool
  durationSeconds : Option Nat
  responseLength : Option Nat
  deriving DecidableEq, Repr

/-- One entry of the session's `tasks` list (`start_task` dict). -/
structure TaskEntry where
  taskName : String
  attemptNumber : Nat
  startTime : Nat
  endTime : Option Nat
  taskStatus : Option TaskStatus
  agentFailed : Option Bool
  agentFailedReason : Option TaskStatus
  deprecated : Bool
  deprecatedReason : Option String
  durationSeconds : Option Nat
  prompts : List PromptEntry
  deriving DecidableEq, Repr

/-- The `session_data` dict serialized by `_write_to_disk`. -/
structure SessionData where
  sessionStart : Nat
  agentName : String
  promptVersion : Nat
  taskSource : String
  tasks : List TaskEntry
  deriving DecidableEq, Repr

/-- The logger's state: in-memory fields plus the content of the on-disk
JSON file (`self.session_file`). -/
structure CompletionLogger where
  sessionData : SessionData
  currentTask : Option TaskEntry
  currentPrompt : Option PromptEntry
  disk : SessionData
  deriving DecidableEq, Repr

namespace CompletionLogger

/-- `_write_to_disk`: dump `session_data` to the session file. -/
def write_to_disk (cl : CompletionLogger) : CompletionLogger :=
  { cl with disk := cl.sessionData }

/-- `__init__`: build the fresh session record and immediately write it to
disk (the constructor ends with `self._write_to_disk()`).  The `disk` field
before that first write is irrelevant, so the constructor is modelled as
the post-write state. -/
def init (sessionStart : Nat) (agentName : String) (promptVersion : Nat)
    (taskSource : String) : CompletionLogger :=
  let data : SessionData :=
    { sessionStart := sessionStart
      agentName := agentName
      promptVersion := promptVersion
      taskSource := taskSource
      tasks := [] }
  write_to_disk { sessionData := data, currentTask := none, currentPrompt := none, disk := data }

/-- `start_task`: open a fresh task dict and write through. -/
def start_task (cl : CompletionLogger) (taskName : String) (attemptNumber : Nat)
    (now : Nat) : CompletionLogger :=
  write_to_disk
    { cl with
      currentTask := some
        { taskName := taskName
          attemptNumber := attemptNumber
          startTime := now
          endTime := none
          taskStatus := none
          agentFailed := none
          agentFailedReason := none
          deprecated := false
          deprecatedReason := none
          durationSeconds := none
          prompts := [] } }

/-- `end_task`: close the active task, derive `agent_failed` from the
status, append the task to `session_data["tasks"]` and write through.
With no active task it warns and returns without touching anything. -/
def end_task (cl : CompletionLogger) (status : TaskStatus) (now : Nat) :
    CompletionLogger :=
  match cl.currentTask with
  | none => cl
  | some t =>
    let t' : TaskEntry :=
      { t with
        endTime := some now
        taskStatus := some status
        durationSeconds := some (now - t.startTime)
        agentFailed := some (status ≠ TaskStatus.SUCCESS)
        agentFailedReason := if status = TaskStatus.SUCCESS then none else some status }
    write_to_disk
      { cl with
        sessionData := { cl.sessionData with tasks := cl.sessionData.tasks ++ [t'] }
        currentTask := none }

/-- `start_prompt`: open a fresh prompt dict (text truncated to 500
characters) and write through. -/
def start_prompt (cl : CompletionLogger) (promptText : String) (now : Nat) :
    CompletionLogger :=
  write_to_disk
    { cl with
      currentPrompt := some
        { promptText := promptText.take 500
          startTime := now
          endTime := none
          success := none
          durationSeconds := none
          responseLength := none } }

/-- `end_prompt`: close the active prompt, attach it to the active task if
one exists, and write through.  With no active prompt it warns and returns
without touching anything.  The `response_length` field is only recorded
when nonzero (Python truthiness of `if response_length:`). -/
def end_prompt (cl : CompletionLogger) (success : Bool) (responseLength : Nat)
    (now : Nat) : CompletionLogger :=
  match cl.currentPrompt with
  | none => cl
  | some p =>
    let p' : PromptEntry :=
      { p with
        endTime := some now
        success := some success
        durationSeconds := some (now - p.startTime)
        responseLength := if responseLength ≠ 0 then some responseLength else none }
    let cl' : CompletionLogger :=
      match cl.currentTask with
      | some t => { cl with currentTask := some { t with prompts := t.prompts ++ [p'] } }
      | none => cl
    write_to_disk { cl' with currentPrompt := none }

end CompletionLogger

/-- C9: Write-through invariant of the CompletionLogger.  The constructor
establishes `disk = sessionData`, and every mutating call (`start_task`,
`end_task`, `start_prompt`, `end_prompt`) preserves it: each transition
ends in `_write_to_disk`, so the on-disk record always reflects the state
after the last completed transition; no transition leaves the session
record buffered only in memory. -/
theorem completion_logger_write_through :
    (∀ s a v src, (CompletionLogger.init s a v src).disk =
        (CompletionLogger.init s a v src).sessionData) ∧
    (∀ (cl : CompletionLogger), cl.disk = cl.sessionData →
      (∀ n i now, (cl.start_task n i now).disk = (cl.start_task n i now).sessionData) ∧
      (∀ st now, (cl.end_task st now).disk = (cl.end_task st now).sessionData) ∧
      (∀ p now, (cl.start_prompt p now).disk = (cl.start_prompt p now).sessionData) ∧
      (∀ ok len now, (cl.end_prompt ok len now).disk =
          (cl.end_prompt ok len now).sessionData)) := by
  refine ⟨fun s a v src => rfl, fun cl h => ⟨fun n i now => rfl, fun st now => ?_,
    fun p now => rfl, fun ok len now => ?_⟩⟩
  · unfold CompletionLogger.end_task
    cases cl.currentTask with
    | none => exact h
    | some t => rfl
  · unfold CompletionLogger.end_prompt
    cases cl.currentPrompt with
    | none => exact h
    | some p =>
      cases cl.currentTask with
      | none => rfl
      | some t => rfl

/-- Witness for C9: the invariant applied to a concrete logger state whose
disk matches its session data, with `end_task` called on it. -/
theorem completion_logger_write_through_witness :
    ((CompletionLogger.init 0 "chatgpt_web" 1 "fmwc").disk =
      (CompletionLogger.init 0 "chatgpt_web" 1 "fmwc").sessionData) ∧
    (((CompletionLogger.init 0 "chatgpt_web" 1 "fmwc").start_task "t" 1 5).end_task
        TaskStatus.SUCCESS 9).disk =
      (((CompletionLogger.init 0 "chatgpt_web" 1 "fmwc").start_task "t" 1 5).end_task
        TaskStatus.SUCCESS 9).sessionData := by
  refine ⟨completion_logger_write_through.1 0 "chatgpt_web" 1 "fmwc", ?_⟩
  exact (completion_logger_write_through.2
    ((CompletionLogger.init 0 "chatgpt_web" 1 "fmwc").start_task "t" 1 5)
    (by decide)).2.1 TaskStatus.SUCCESS 9

/-- C10: calling `end_task` with no active task, or `end_prompt` with no
active prompt, is a no-op: the logger's whole state (in-memory session
data, current pointers, and the on-disk record) is returned unchanged, and
the operation is a total function (the Python code logs a warning and
returns; it cannot raise). -/
theorem completion_logger_end_noop :
    ∀ (cl : CompletionLogger),
      (cl.currentTask = none → ∀ st now, cl.end_task st now = cl) ∧
      (cl.currentPrompt = none → ∀ ok len now, cl.end_prompt ok len now = cl) := by
  intro cl
  constructor
  · intro h st now
    unfold CompletionLogger.end_task
    rw [h]
  · intro h ok len now
    unfold CompletionLogger.end_prompt
    rw [h]

/-- Witness for C10: a fresh logger has no active task and no active
prompt, and both closers leave it unchanged. -/
theorem completion_logger_end_noop_witness :
    (CompletionLogger.init 3 "web_agent" 1 "").end_task TaskStatus.UNKNOWN 7 =
      CompletionLogger.init 3 "web_agent" 1 "" ∧
    (CompletionLogger.init 3 "web_agent" 1 "").end_prompt true 42 7 =
      CompletionLogger.init 3 "web_agent" 1 "" :=
  ⟨(completion_logger_end_noop (CompletionLogger.init 3 "web_agent" 1 "")).1 rfl
      TaskStatus.UNKNOWN 7,
    (completion_logger_end_noop (CompletionLogger.init 3 "web_agent" 1 "")).2 rfl true 42 7⟩

/-! ## Runner (`engine/runner.py`, `run_automation`)

The two-tier retry loop.  Browser/agent behaviour during one attempt is
supplied by an `AttemptEnv` oracle scripted per loop iteration; the loop
state mirrors the Python locals `agent_attempts`, `total_attempts`,
`agent_json_paths` and `task_success`.  Each element of `agent_json_paths`
is a completion-record file whose single task entry is modelled by an
`AttemptRecord`. -/

/-- The task entry of one completion-record JSON in `agent_json_paths`:
its final status plus the deprecation marker fields that
`mark_json_deprecated` updates. -/
structure AttemptRecord where
  status : TaskStatus
  deprecated : Bool
  deprecatedReason : Option String
  deriving DecidableEq, Repr

/-- The retry loop's mutable locals in `run_automation`. -/
structure RunnerState where
  agentAttempts : Nat
  totalAttempts : Nat
  records : List AttemptRecord
  taskSuccess : Bool
  deriving DecidableEq, Repr

/-- Point at which an unexpected exception escapes the Phase 2 `try`
block, if any.  The `except Exception` handler charges one agent attempt
and then classifies the attempt UNKNOWN only behind the guard
`if completion_logger and completion_logger.current_task`.

`beforeRecord`: raised before `start_task` opened the attempt's record
(e.g. `CompletionLogger.__init__` failing to create the log directory),
so `completion_logger` is still `None`, the guard fails, and no record is
created or classified.  `duringRecord`: raised while the record is open
(prompt processing, artifact download, validation, renaming), so the
guard passes and the record is closed UNKNOWN and appended.  An exception
raised after `end_task` has already closed the record (success-path
history write or teardown) reaches the same handler with
`current_task = None`; the handler's no-open-record behaviour is the
`beforeRecord` case. -/
inductive Phase2Raise where
  | noRaise
  | beforeRecord
  | duringRecord
  deriving DecidableEq, Repr

/-- Oracle for one attempt: how Phase 1 and Phase 2 interactions with the
browser turn out on that iteration.  `pipelineError = some s` means Phase 1
raised `PipelineError(s)`; `unexpectedRaise` says whether (and with the
attempt's completion record open or not) an unexpected exception escapes
the Phase 2 `try` block; `validate` is the external `validate_excel_file`
collaborator returning (is_valid, status). -/
structure AttemptEnv where
  pipelineError : Option TaskStatus
  unexpectedRaise : Phase2Raise
  promptSuccess : Bool
  attemptTimedOut : Bool
  downloadedFiles : List String
  validate : String → Bool × TaskStatus

/-- The retry-loop parameters of `run_automation`, plus oracles for the
wall clock (`time.time() - task_wall_start` at the top of iteration `i`)
and the shutdown event. -/
structure RunnerParams where
  maxAgentAttempts : Nat
  maxTotalAttempts : Nat
  maxSecPerTask : Nat
  elapsedAt : Nat → Nat
  shutdownAt : Nat → Bool

/-- `f.lower().endswith((".xlsx", ".xls"))` from the Excel-file filter,
expressed over the character list of the filename. -/
def isExcelName (f : String) : Bool :=
  ".xlsx".data.isSuffixOf (f.data.map Char.toLower) ||
  ".xls".data.isSuffixOf (f.data.map Char.toLower)

/-- The validation loop over `excel_files`: return the status of the first
file that fails `validate_excel_file` (the Python loop breaks there), or
`none` when every file validates. -/
def firstInvalidStatus (validate : String → Bool × TaskStatus) :
    List String → Option TaskStatus
  | [] => none
  | f :: rest =>
    let v := validate f
    if v.1 then firstInvalidStatus validate rest else some v.2

/-- Effect of `mark_json_deprecated` on a record's task entry. -/
def mark_json_deprecated (r : AttemptRecord) : AttemptRecord :=
  { r with deprecated := true, deprecatedReason := some "Superseded by later attempt" }

/-- The post-loop pass: `for path in agent_json_paths[:-1]:
mark_json_deprecated(path)` — every record but the last is marked. -/
def deprecateAllButLast : List AttemptRecord → List AttemptRecord
  | [] => []
  | [r] => [r]
  | r :: r' :: rest => mark_json_deprecated r :: deprecateAllButLast (r' :: rest)

/-- The body of one retry-loop iteration after the unconditional
`total_attempts += 1`.  Returns the updated state and whether the loop
`break`s (only the SUCCESS path breaks).

Phase 1 (`except PipelineError`): sleep and `continue` — no completion
logger is constructed, so no record exists and `agent_attempts` is
untouched.

Phase 2: a `CompletionLogger` is constructed and `start_task` called; on
every terminating path `agent_attempts` is incremented, `end_task` is
called with the classified status and the record is appended to
`agent_json_paths`.  An unexpected exception is caught by the outer
`except Exception`: `agent_attempts += 1` unconditionally, but
`end_task(UNKNOWN)` and the append run only behind the guard
`if completion_logger and completion_logger.current_task` — an exception
with no open record is charged without any classification. -/
def runStep (env : AttemptEnv) (st : RunnerState) : RunnerState × Bool :=
  match env.pipelineError with
  | some _ => (st, false)
  | none =>
    match env.unexpectedRaise with
    | Phase2Raise.beforeRecord =>
      ({ st with agentAttempts := st.agentAttempts + 1 }, false)
    | Phase2Raise.duringRecord =>
      ({ st with
          agentAttempts := st.agentAttempts + 1
          records := st.records ++ [⟨TaskStatus.UNKNOWN, false, none⟩] }, false)
    | Phase2Raise.noRaise =>
      if !env.promptSuccess then
        let status := if env.attemptTimedOut then TaskStatus.TIMEOUT else TaskStatus.PROMPT_FAILED
        ({ st with
            agentAttempts := st.agentAttempts + 1
            records := st.records ++ [⟨status, false, none⟩] }, false)
      else if env.downloadedFiles.isEmpty then
        ({ st with
            agentAttempts := st.agentAttempts + 1
            records := st.records ++ [⟨TaskStatus.DOWNLOAD_FAILED, false, none⟩] }, false)
      else
        let excelFiles := env.downloadedFiles.filter isExcelName
        if excelFiles.isEmpty then
          ({ st with
              agentAttempts := st.agentAttempts + 1
              records := st.records ++ [⟨TaskStatus.DOWNLOAD_FAILED, false, none⟩] }, false)
        else
          match firstInvalidStatus env.validate excelFiles with
          | some vstatus =>
            ({ st with
                agentAttempts := st.agentAttempts + 1
                records := st.records ++ [⟨vstatus, false, none⟩] }, false)
          | none =>
            ({ st with
                agentAttempts := st.agentAttempts + 1
                records := st.records ++ [⟨TaskStatus.SUCCESS, false, none⟩]
                taskSuccess := true }, true)

/-- The `while True` retry loop.  Termination checks mirror the loop top:
total budget, agent budget, wall-clock budget (only when
`max_sec_per_task > 0`), shutdown signal; then `total_attempts += 1` and
one attempt runs.  `fuel` bounds the iteration count; `run_automation`
passes `maxTotalAttempts`, which is exact because every iteration
increments `totalAttempts`. -/
def runLoop (p : RunnerParams) (script : Nat → AttemptEnv) :
    Nat → RunnerState → RunnerState
  | 0, st => st
  | fuel + 1, st =>
    if p.maxTotalAttempts ≤ st.totalAttempts then st
    else if p.maxAgentAttempts ≤ st.agentAttempts then st
    else if 0 < p.maxSecPerTask ∧ p.maxSecPerTask ≤ p.elapsedAt st.totalAttempts then st
    else if p.shutdownAt st.totalAttempts then st
    else
      let idx := st.totalAttempts
      let step := runStep (script idx) { st with totalAttempts := st.totalAttempts + 1 }
      if step.2 then step.1 else runLoop p script fuel step.1

/-- `run_automation`: run the retry loop from the zeroed counters, then
apply the post-loop deprecation pass when more than one completion record
was produced. -/
def run_automation (p : RunnerParams) (script : Nat → AttemptEnv) : RunnerState :=
  let st := runLoop p script p.maxTotalAttempts
    { agentAttempts := 0, totalAttempts := 0, records := [], taskSuccess := false }
  if 1 < st.records.length then
    { st with records := deprecateAllButLast st.records }
  else st

/-- Default retry parameters from the config extraction:
`max_agent_attempts = 3`, `max_total_attempts = 10`,
`max_sec_per_task = 0` (unlimited), no shutdown signal. -/
def defaultParams : RunnerParams :=
  { maxAgentAttempts := 3
    maxTotalAttempts := 10
    maxSecPerTask := 0
    elapsedAt := fun _ => 0
    shutdownAt := fun _ => false }

/-- An attempt where everything works: prompts succeed and one valid
Excel artifact is downloaded. -/
def successEnv : AttemptEnv :=
  { pipelineError := none
    unexpectedRaise := Phase2Raise.noRaise
    promptSuccess := true
    attemptTimedOut := false
    downloadedFiles := ["solution.xlsx"]
    validate := fun _ => (true, TaskStatus.SUCCESS) }

/-- An attempt where `process_all_prompts` returns false (agent failure,
no timeout). -/
def promptFailEnv : AttemptEnv :=
  { successEnv with promptSuccess := false, downloadedFiles := [] }

/-- An attempt where Phase 1 navigation fails. -/
def navFailEnv : AttemptEnv :=
  { successEnv with pipelineError := some TaskStatus.NAVIGATION_FAILED }

/-- An attempt whose Phase 2 raises an unexpected exception while the
attempt's completion record is open. -/
def raiseDuringRecordEnv : AttemptEnv :=
  { successEnv with unexpectedRaise := Phase2Raise.duringRecord }

/-- An attempt whose Phase 2 raises an unexpected exception before the
attempt's completion record was opened (the `CompletionLogger`
constructor failed, so `completion_logger` is still `None` in the
handler). -/
def raiseBeforeRecordEnv : AttemptEnv :=
  { successEnv with unexpectedRaise := Phase2Raise.beforeRecord }

/-- C1's scripted sequence: 2 pipeline failures, then 1 agent failure,
then success. -/
def c1Script : Nat → AttemptEnv := fun i =>
  if i < 2 then navFailEnv else if i = 2 then promptFailEnv else successEnv

/-- C7's scripted sequence: 2 agent failures then success, producing 3
completion records. -/
def c7Script : Nat → AttemptEnv := fun i =>
  if i < 2 then promptFailEnv else successEnv

/-! ### Runner lemmas -/

/-- A `PipelineError` attempt is handled by the `except PipelineError`
clause: state untouched, no record, loop continues. -/
theorem runStep_pipeline (env : AttemptEnv) (st : RunnerState) (s : TaskStatus)
    (h : env.pipelineError = some s) : runStep env st = (st, false) := by
  unfold runStep
  rw [h]

/-- Every Phase 2 path (failures, UNKNOWN, and SUCCESS alike) charges
exactly one agent attempt and leaves `total_attempts` alone. -/
theorem runStep_agent_charge (env : AttemptEnv) (st : RunnerState)
    (h : env.pipelineError = none) :
    (runStep env st).1.agentAttempts = st.agentAttempts + 1 ∧
    (runStep env st).1.totalAttempts = st.totalAttempts := by
  obtain ⟨pe, ue, ps, tmo, df, va⟩ := env
  cases h
  simp only [runStep]
  repeat' split
  all_goals exact ⟨rfl, rfl⟩

/-- A step either keeps the record list or appends one fresh record with
`deprecated = false` (the value `start_task` writes). -/
theorem runStep_records_shape (env : AttemptEnv) (st : RunnerState) :
    (runStep env st).1.records = st.records ∨
    ∃ s, (runStep env st).1.records = st.records ++ [⟨s, false, none⟩] := by
  simp only [runStep]
  repeat' split
  all_goals first
    | exact Or.inl rfl
    | exact Or.inr ⟨_, rfl⟩

theorem runStep_not_deprecated (env : AttemptEnv) (st : RunnerState)
    (h : ∀ r ∈ st.records, r.deprecated = false) :
    ∀ r ∈ (runStep env st).1.records, r.deprecated = false := by
  rcases runStep_records_shape env st with heq | ⟨s, heq⟩
  · rw [heq]; exact h
  · rw [heq]
    intro r hr
    rcases List.mem_append.mp hr with hr | hr
    · exact h r hr
    · rw [List.mem_singleton.mp hr]

/-- Records produced during the retry loop all carry `deprecated = false`;
only the post-loop pass flips the flag. -/
theorem runLoop_not_deprecated (p : RunnerParams) (script : Nat → AttemptEnv) :
    ∀ (fuel : Nat) (st : RunnerState),
      (∀ r ∈ st.records, r.deprecated = false) →
      ∀ r ∈ (runLoop p script fuel st).records, r.deprecated = false := by
  intro fuel
  induction fuel with
  | zero => intro st h; simpa [runLoop] using h
  | succ n ih =>
    intro st h
    simp only [runLoop]
    repeat' split
    any_goals exact h
    · exact runStep_not_deprecated _ _ h
    · exact ih _ (runStep_not_deprecated _ _ h)

/-- `deprecateAllButLast` on a list with an explicit last element: all the
earlier records are marked, the last is untouched. -/
theorem deprecateAllButLast_append (rs : List AttemptRecord) (r : AttemptRecord) :
    deprecateAllButLast (rs ++ [r]) = rs.map mark_json_deprecated ++ [r] := by
  induction rs with
  | nil => rfl
  | cons a rest ih =>
    cases rest with
    | nil => rfl
    | cons b t =>
      show mark_json_deprecated a :: deprecateAllButLast ((b :: t) ++ [r]) = _
      rw [ih]
      rfl

/-- C1: Retry accounting of the two-tier loop.  Pipeline failures leave
`agent_attempts` and the record list untouched; every Phase 2 outcome
(failure or SUCCESS) charges exactly one agent attempt while
`total_attempts` is only incremented at the loop top; and on the scripted
sequence of 2 pipeline failures, 1 agent failure, then success,
`run_automation` ends with `total_attempts = 4` and `agent_attempts = 2`. -/
theorem runner_retry_accounting :
    (∀ (env : AttemptEnv) (st : RunnerState) (s : TaskStatus),
        env.pipelineError = some s → runStep env st = (st, false)) ∧
    (∀ (env : AttemptEnv) (st : RunnerState), env.pipelineError = none →
        (runStep env st).1.agentAttempts = st.agentAttempts + 1 ∧
        (runStep env st).1.totalAttempts = st.totalAttempts) ∧
    (run_automation defaultParams c1Script).totalAttempts = 4 ∧
    (run_automation defaultParams c1Script).agentAttempts = 2 :=
  ⟨runStep_pipeline, runStep_agent_charge, by decide, by decide⟩

/-- Witness for C1: the frame and charge facts applied at concrete states,
alongside the closed scripted-run fact. -/
theorem runner_retry_accounting_witness :
    runStep navFailEnv ⟨0, 1, [], false⟩ = (⟨0, 1, [], false⟩, false) ∧
    (runStep promptFailEnv ⟨0, 3, [], false⟩).1.agentAttempts = 0 + 1 ∧
    (run_automation defaultParams c1Script).totalAttempts = 4 :=
  ⟨runner_retry_accounting.1 navFailEnv ⟨0, 1, [], false⟩ TaskStatus.NAVIGATION_FAILED rfl,
    (runner_retry_accounting.2.1 promptFailEnv ⟨0, 3, [], false⟩ rfl).1,
    runner_retry_accounting.2.2.1⟩

/-- Closed form of the loop when every scripted attempt raises a
`PipelineError`: only `total_attempts` advances, up to the total budget. -/
theorem runLoop_all_pipeline (p : RunnerParams) (script : Nat → AttemptEnv)
    (hsec : p.maxSecPerTask = 0) (hshut : ∀ i, p.shutdownAt i = false)
    (hscript : ∀ i, ∃ s, (script i).pipelineError = some s) :
    ∀ (fuel : Nat) (st : RunnerState),
      runLoop p script fuel st =
        if st.agentAttempts < p.maxAgentAttempts then
          { st with totalAttempts :=
              st.totalAttempts + min fuel (p.maxTotalAttempts - st.totalAttempts) }
        else st := by
  intro fuel
  induction fuel with
  | zero =>
    intro st
    simp only [runLoop, Nat.zero_min, Nat.add_zero]
    split <;> simp
  | succ n ih =>
    intro st
    simp only [runLoop]
    by_cases h1 : p.maxTotalAttempts ≤ st.totalAttempts
    · rw [if_pos h1, Nat.sub_eq_zero_of_le h1]
      split <;> simp
    · rw [if_neg h1]
      by_cases h2 : p.maxAgentAttempts ≤ st.agentAttempts
      · rw [if_pos h2, if_neg (by omega)]
      · rw [if_neg h2, if_neg (by simp [hsec]), if_neg (by simp [hshut])]
        obtain ⟨s, hs⟩ := hscript st.totalAttempts
        rw [runStep_pipeline _ _ s hs]
        simp only [Bool.false_eq_true, if_false]
        rw [ih]
        simp only [if_pos (show st.agentAttempts < p.maxAgentAttempts by omega)]
        simp only [RunnerState.mk.injEq]
        refine ⟨?_, ?_, ?_, ?_⟩ <;> first | trivial | omega

/-- C5: Pipeline failures are a pure frame on the agent budget and the
record store.  Any single pipeline-failing attempt leaves the loop state
unchanged, and a task whose Phase 1 always fails (navigation, auth,
rate-limit or upload) exhausts `max_total_attempts` with zero completion
records and `agent_attempts` still 0. -/
theorem runner_pipeline_no_records :
    (∀ (env : AttemptEnv) (st : RunnerState) (s : TaskStatus),
        env.pipelineError = some s → runStep env st = (st, false)) ∧
    (∀ (p : RunnerParams) (script : Nat → AttemptEnv),
        0 < p.maxAgentAttempts →
        p.maxSecPerTask = 0 →
        (∀ i, p.shutdownAt i = false) →
        (∀ i, ∃ s, (script i).pipelineError = some s) →
        (run_automation p script).records = [] ∧
        (run_automation p script).agentAttempts = 0 ∧
        (run_automation p script).totalAttempts = p.maxTotalAttempts) := by
  refine ⟨runStep_pipeline, ?_⟩
  intro p script hagent hsec hshut hscript
  unfold run_automation
  rw [runLoop_all_pipeline p script hsec hshut hscript]
  simp [hagent]

/-- Witness for C5: navigation always failing, default budgets. -/
theorem runner_pipeline_no_records_witness :
    runStep navFailEnv ⟨1, 2, [], false⟩ = (⟨1, 2, [], false⟩, false) ∧
    (run_automation defaultParams (fun _ => navFailEnv)).records = [] ∧
    (run_automation defaultParams (fun _ => navFailEnv)).agentAttempts = 0 ∧
    (run_automation defaultParams (fun _ => navFailEnv)).totalAttempts = 10 :=
  ⟨runner_pipeline_no_records.1 navFailEnv ⟨1, 2, [], false⟩
      TaskStatus.NAVIGATION_FAILED rfl,
    runner_pipeline_no_records.2 defaultParams (fun _ => navFailEnv)
      (by decide) rfl (fun _ => rfl)
      (fun _ => ⟨TaskStatus.NAVIGATION_FAILED, rfl⟩)⟩

/-- C6 counterexample: an unexpected exception raised in Phase 2 before
the attempt's completion record was opened (the `CompletionLogger`
constructor failing, so `completion_logger` is still `None`) is caught
and charged to `agent_attempts`, but the handler's guard
`if completion_logger and completion_logger.current_task` fails: the
attempt is NOT classified UNKNOWN — no record is created at all.  This
refutes the claim that every unexpected Phase 2 exception results in an
UNKNOWN classification: here the record list stays empty while the
attempt is charged and the loop continues. -/
theorem runner_unknown_guard_counterexample :
    runStep raiseBeforeRecordEnv ⟨0, 1, [], false⟩ = (⟨1, 1, [], false⟩, false) := by
  decide

/-- C6 amended: every unexpected exception escaping Phase 2 is caught by
the `except Exception` handler — `agent_attempts` is charged and the loop
continues on the retry path, never letting the exception propagate out of
`run_automation` (the loop is a total function of the script) — but the
attempt is classified UNKNOWN (record closed and appended) only when the
attempt's completion record is open when the exception is raised; with no
open record the attempt is charged without any UNKNOWN classification. -/
theorem runner_unexpected_exception :
    (∀ (env : AttemptEnv) (st : RunnerState),
        env.pipelineError = none → env.unexpectedRaise = Phase2Raise.duringRecord →
        runStep env st =
          ({ st with
              agentAttempts := st.agentAttempts + 1
              records := st.records ++ [⟨TaskStatus.UNKNOWN, false, none⟩] }, false)) ∧
    (∀ (env : AttemptEnv) (st : RunnerState),
        env.pipelineError = none → env.unexpectedRaise = Phase2Raise.beforeRecord →
        runStep env st = ({ st with agentAttempts := st.agentAttempts + 1 }, false)) ∧
    (∀ (p : RunnerParams) (script : Nat → AttemptEnv) (fuel : Nat) (st : RunnerState),
        st.totalAttempts < p.maxTotalAttempts →
        st.agentAttempts < p.maxAgentAttempts →
        ¬(0 < p.maxSecPerTask ∧ p.maxSecPerTask ≤ p.elapsedAt st.totalAttempts) →
        p.shutdownAt st.totalAttempts = false →
        (script st.totalAttempts).pipelineError = none →
        (script st.totalAttempts).unexpectedRaise = Phase2Raise.duringRecord →
        runLoop p script (fuel + 1) st =
          runLoop p script fuel
            { st with
                agentAttempts := st.agentAttempts + 1
                totalAttempts := st.totalAttempts + 1
                records := st.records ++ [⟨TaskStatus.UNKNOWN, false, none⟩] }) := by
  refine ⟨?_, ?_, ?_⟩
  · intro env st h1 h2
    unfold runStep
    rw [h1, h2]
  · intro env st h1 h2
    unfold runStep
    rw [h1, h2]
  · intro p script fuel st ht ha hsec hshut hpipe hexc
    have hstep : runStep (script st.totalAttempts)
        { st with totalAttempts := st.totalAttempts + 1 } =
        ({ st with
            agentAttempts := st.agentAttempts + 1
            totalAttempts := st.totalAttempts + 1
            records := st.records ++ [⟨TaskStatus.UNKNOWN, false, none⟩] }, false) := by
      unfold runStep
      rw [hpipe, hexc]
    conv_lhs => rw [runLoop]
    rw [if_neg (by omega), if_neg (by omega), if_neg hsec, if_neg (by simp [hshut])]
    simp only [hstep]
    simp

/-- Witness for C6: a concrete record-open exception (classified UNKNOWN
and appended), a concrete no-record exception (charged, nothing
appended), and the record-open case inside the loop. -/
theorem runner_unexpected_exception_witness :
    runStep raiseDuringRecordEnv ⟨0, 1, [], false⟩ =
      (⟨1, 1, [⟨TaskStatus.UNKNOWN, false, none⟩], false⟩, false) ∧
    runStep raiseBeforeRecordEnv ⟨2, 4, [], false⟩ = (⟨3, 4, [], false⟩, false) ∧
    runLoop defaultParams (fun _ => raiseDuringRecordEnv) 1 ⟨0, 0, [], false⟩ =
      runLoop defaultParams (fun _ => raiseDuringRecordEnv) 0
        ⟨1, 1, [⟨TaskStatus.UNKNOWN, false, none⟩], false⟩ :=
  ⟨runner_unexpected_exception.1 raiseDuringRecordEnv ⟨0, 1, [], false⟩ rfl rfl,
    runner_unexpected_exception.2.1 raiseBeforeRecordEnv ⟨2, 4, [], false⟩ rfl rfl,
    runner_unexpected_exception.2.2 defaultParams (fun _ => raiseDuringRecordEnv) 0
      ⟨0, 0, [], false⟩ (by decide) (by decide) (by decide) rfl rfl rfl⟩

/-- C7: post-loop deprecation.  Whenever the retry loop produced more than
one completion record, `run_automation` marks every record except the last
as deprecated and leaves the last one not deprecated. -/
theorem runner_deprecation (p : RunnerParams) (script : Nat → AttemptEnv)
    (h : 1 < (run_automation p script).records.length) :
    (∀ r ∈ (run_automation p script).records.dropLast, r.deprecated = true) ∧
    (∀ r ∈ (run_automation p script).records.getLast?, r.deprecated = false) := by
  unfold run_automation at h ⊢
  set st := runLoop p script p.maxTotalAttempts
    { agentAttempts := 0, totalAttempts := 0, records := [], taskSuccess := false } with hst
  by_cases hlen : 1 < st.records.length
  · simp only [if_pos hlen] at h ⊢
    have hne : st.records ≠ [] := by
      intro hnil
      rw [hnil] at hlen
      simp at hlen
    have hdecomp : st.records.dropLast ++ [st.records.getLast hne] = st.records :=
      List.dropLast_append_getLast hne
    have hnotdep : ∀ r ∈ st.records, r.deprecated = false :=
      runLoop_not_deprecated p script p.maxTotalAttempts _ (by simp)
    rw [← hdecomp, deprecateAllButLast_append]
    constructor
    · intro r hr
      rw [List.dropLast_concat] at hr
      obtain ⟨x, _, hx⟩ := List.mem_map.mp hr
      rw [← hx]
      rfl
    · intro r hr
      rw [List.getLast?_concat] at hr
      have hre : st.records.getLast hne = r := Option.mem_some_iff.mp hr
      rw [← hre]
      exact hnotdep _ (List.getLast_mem hne)
  · simp only [if_neg hlen] at h
    exact absurd h hlen

/-- Witness for C7: two agent failures then a success produce 3 records;
after the loop the first 2 are deprecated and the 3rd is not. -/
theorem runner_deprecation_witness :
    1 < (run_automation defaultParams c7Script).records.length ∧
    (∀ r ∈ (run_automation defaultParams c7Script).records.dropLast,
      r.deprecated = true) ∧
    (∀ r ∈ (run_automation defaultParams c7Script).records.getLast?,
      r.deprecated = false) :=
  ⟨by decide, runner_deprecation defaultParams c7Script (by decide)⟩

/-! ## ChatGPT agent (`agents/chatgpt.py`, `wait_for_response`)

The three-phase completion-detection protocol.  Page polls are oracles:
Phase 1 (generation-start wait) consumes `StartSample`s, Phase 2
(stabilization) consumes `StabSample`s carrying the event-loop time in
seconds since `start_time`. -/

/-- The 52-character stable response text used in witnesses. -/
def stableText : String := "0123456789012345678901234567890123456789012345678901"

namespace ChatGPT

/-- The agent fields `_baseline_article_count` / `_baseline_set` set in
`__init__` and updated only by the first `wait_for_response` of a
session. -/
structure Baseline where
  baselineArticleCount : Nat
  baselineSet : Bool
  deriving DecidableEq, Repr

/-- One Phase 1 poll: the shutdown check, `_is_generating()` and
`_count_response_articles()`. -/
structure StartSample where
  shutdown : Bool
  generating : Bool
  articleCount : Nat
  deriving DecidableEq, Repr

/-- One Phase 2 poll: the shutdown check, `_is_generating()`,
`_count_response_articles()`, `_extract_last_response() or ""`, and the
elapsed seconds since `start_time` at the top of the iteration. -/
structure StabSample where
  shutdown : Bool
  generating : Bool
  articleCount : Nat
  text : String
  time : Nat
  deriving DecidableEq, Repr

/-- Mutable locals of the stabilization loop: `stable_count`,
`last_response_text`, `last_article_count`. -/
structure StabState where
  stableCount : Nat
  lastResponseText : String
  lastArticleCount : Nat
  deriving DecidableEq, Repr

/-- `required_stable = 5` — consecutive stable checks needed. -/
def required_stable : Nat := 5

/-- One iteration body of the stabilization loop (the shutdown check is
done by the enclosing loop).  `Sum.inr text` is the in-loop
`return current_response`; `Sum.inl` carries the updated locals.

Mirrors: a generating indicator or an article-count change zeroes
`stable_count` (and tracks text and count); otherwise a text change
zeroes it and stability increments it; at `required_stable` the response
is returned only if it exceeds 50 characters and `min_elapsed_sec` has
passed, else `stable_count` is zeroed and waiting continues.  (The count
is stored unconditionally here; the Python updates it only when changed,
which is equivalent since otherwise it is already equal.) -/
def stabStep (minElapsedSec : Nat) (st : StabState) (s : StabSample) :
    StabState ⊕ String :=
  if s.generating || (s.articleCount != st.lastArticleCount) then
    Sum.inl { stableCount := 0, lastResponseText := s.text, lastArticleCount := s.articleCount }
  else
    let textChanged := s.text != st.lastResponseText
    let stable := if textChanged then 0 else st.stableCount + 1
    if required_stable ≤ stable then
      if 50 < s.text.length then
        if minElapsedSec ≤ s.time then Sum.inr s.text
        else Sum.inl { stableCount := 0, lastResponseText := s.text, lastArticleCount := s.articleCount }
      else Sum.inl { stableCount := 0, lastResponseText := s.text, lastArticleCount := s.articleCount }
    else Sum.inl { stableCount := stable, lastResponseText := s.text, lastArticleCount := s.articleCount }

/-- Outcome of the stabilization `while` loop. -/
inductive StabOutcome where
  | completed (text : String)
  | shutdownAbort
  | timedOut
  deriving DecidableEq, Repr

/-- The Phase 2 `while` loop: runs while elapsed time is below
`max_wait_per_prompt`; aborts with `None` on the shutdown event; else
steps.  One sample per iteration; running out of samples corresponds to
reaching the overall timeout. -/
def stabLoop (maxWait minElapsedSec : Nat) :
    StabState → List StabSample → StabOutcome
  | _, [] => StabOutcome.timedOut
  | st, s :: rest =>
    if s.time < maxWait then
      if s.shutdown then StabOutcome.shutdownAbort
      else
        match stabStep minElapsedSec st s with
        | Sum.inr text => StabOutcome.completed text
        | Sum.inl st' => stabLoop maxWait minElapsedSec st' rest
    else StabOutcome.timedOut

/-- Outcome of the Phase 1 generation-start wait. -/
inductive StartOutcome where
  | started
  | shutdownHit
  | notStarted
  deriving DecidableEq, Repr

/-- Phase 1: `for _ in range(60)` — up to 60 polls (2 s apart, ≈120 s)
waiting for either a generation indicator or a response-article count
above the pre-prompt count `baseline_article_count`. -/
def generationStartWait (preCount : Nat) (samples : Nat → StartSample) :
    Nat → Nat → StartOutcome
  | _, 0 => StartOutcome.notStarted
  | i, fuel + 1 =>
    let s := samples i
    if s.shutdown then StartOutcome.shutdownHit
    else if s.generating then StartOutcome.started
    else if preCount < s.articleCount then StartOutcome.started
    else generationStartWait preCount samples (i + 1) fuel

/-- `ChatGPTWebAgent.wait_for_response`: result text (or `none`) together
with the updated baseline fields.

Phase 0 snapshots the current article count `preCount` into the local
`baseline_article_count`, storing it as the session baseline only when
`_baseline_set` is still false.  `min_elapsed_sec` is 300 with agent mode
on, else 15.  Phase 1 failing to observe generation start returns `none`
without running stabilization.  On stabilization timeout the final
`_extract_last_response()` (the `finalExtract` oracle) is returned when
longer than 50 characters, else `none`. -/
def wait_for_response (agentMode : Bool) (maxWaitPerPrompt : Nat)
    (bl : Baseline) (preCount : Nat)
    (startSamples : Nat → StartSample) (stabSamples : List StabSample)
    (finalExtract : Option String) : Option String × Baseline :=
  let bl' := if bl.baselineSet then bl
             else { baselineArticleCount := preCount, baselineSet := true }
  let minElapsedSec := if agentMode then 300 else 15
  match generationStartWait preCount startSamples 0 60 with
  | StartOutcome.shutdownHit => (none, bl')
  | StartOutcome.notStarted => (none, bl')
  | StartOutcome.started =>
    match stabLoop maxWaitPerPrompt minElapsedSec
        { stableCount := 0, lastResponseText := "", lastArticleCount := preCount }
        stabSamples with
    | StabOutcome.completed text => (some text, bl')
    | StabOutcome.shutdownAbort => (none, bl')
    | StabOutcome.timedOut =>
      match finalExtract with
      | some t => (if 50 < t.length then some t else none, bl')
      | none => (none, bl')

/-- Inversion of the in-loop `return current_response`: it fires only on
a non-generating, count-stable, text-stable sample, with the counter at
the threshold, the length floor passed and the elapsed-time floor met. -/
theorem stabStep_completed (minE : Nat) (st : StabState) (s : StabSample) (t : String)
    (h : stabStep minE st s = Sum.inr t) :
    s.generating = false ∧ s.articleCount = st.lastArticleCount ∧
    s.text = st.lastResponseText ∧ required_stable ≤ st.stableCount + 1 ∧
    50 < s.text.length ∧ minE ≤ s.time ∧ t = s.text := by
  have hg : s.generating = false := by
    by_contra hg
    rw [Bool.not_eq_false] at hg
    simp [stabStep, hg] at h
  have hac : s.articleCount = st.lastArticleCount := by
    by_contra hac
    have hb : (s.articleCount != st.lastArticleCount) = true := bne_iff_ne.mpr hac
    simp [stabStep, hb] at h
  have hcond : (s.generating || (s.articleCount != st.lastArticleCount)) = false := by
    simp [hg, hac]
  have htext : s.text = st.lastResponseText := by
    by_contra htext
    have htb : (s.text != st.lastResponseText) = true := bne_iff_ne.mpr htext
    norm_num [stabStep, hcond, htb, required_stable] at h
    exact Sum.noConfusion h
  have htb : (s.text != st.lastResponseText) = false := by simp [htext]
  by_cases hstable : required_stable ≤ st.stableCount + 1
  · by_cases hlen : 50 < s.text.length
    · by_cases htime : minE ≤ s.time
      · have hteq : t = s.text := by
          simp [stabStep, hcond, htb, hstable, hlen, htime] at h
          exact h.symm
        exact ⟨hg, hac, htext, hstable, hlen, htime, hteq⟩
      · simp [stabStep, hcond, htb, hstable, hlen, htime] at h
    · simp [stabStep, hcond, htb, hstable, hlen] at h
  · simp [stabStep, hcond, htb, hstable] at h

/-- Inversion for the whole stabilization loop: a `completed` outcome
comes from some reached state and in-time sample meeting all the
completion conditions. -/
theorem stabLoop_completed (maxW minE : Nat) :
    ∀ (samples : List StabSample) (st : StabState) (t : String),
      stabLoop maxW minE st samples = StabOutcome.completed t →
      ∃ (st' : ChatGPT.StabState) (s : ChatGPT.StabSample), s ∈ samples ∧ s.time < maxW ∧ s.generating = false ∧
        s.articleCount = st'.lastArticleCount ∧ s.text = st'.lastResponseText ∧
        required_stable ≤ st'.stableCount + 1 ∧ 50 < s.text.length ∧
        minE ≤ s.time ∧ t = s.text := by
  intro samples
  induction samples with
  | nil => intro st t h; simp [stabLoop] at h
  | cons s rest ih =>
    intro st t h
    unfold stabLoop at h
    split at h
    · split at h
      · simp at h
      · rename_i htime hshut
        cases hstep : stabStep minE st s with
        | inl st' =>
          rw [hstep] at h
          obtain ⟨st'', s', hmem, h1, h2, h3, h4, h5, h6, h7, h8⟩ := ih st' t h
          exact ⟨st'', s', List.mem_cons_of_mem s hmem, h1, h2, h3, h4, h5, h6, h7, h8⟩
        | inr text =>
          rw [hstep] at h
          simp only [StabOutcome.completed.injEq] at h
          obtain ⟨h2, h3, h4, h5, h6, h7, h8⟩ := stabStep_completed minE st s text hstep
          exact ⟨st, s, List.mem_cons_self s rest, htime, h2, h3, h4, h5, h6, h7,
            by rw [← h, h8]⟩
    · simp at h

/-- C2: the stabilization phase's counter protocol.  (1) Any sample with
a generation indicator or a changed article count resets the counter to
zero.  (2) Any non-busy sample whose text differs from the previous
sample's resets it to zero.  (3) The loop declares completion (returns
the response text) only on a sample where the counter has reached the
required threshold of 5 consecutive stable samples, the elapsed-time
floor has passed, and the text exceeds the 50-character length floor. -/
theorem chatgpt_stabilization_counter :
    (∀ (minE : Nat) (st : StabState) (s : StabSample),
        s.generating = true ∨ s.articleCount ≠ st.lastArticleCount →
        stabStep minE st s = Sum.inl
          { stableCount := 0, lastResponseText := s.text,
            lastArticleCount := s.articleCount }) ∧
    (∀ (minE : Nat) (st : StabState) (s : StabSample) (st' : StabState),
        stabStep minE st s = Sum.inl st' → s.text ≠ st.lastResponseText →
        st'.stableCount = 0) ∧
    (∀ (maxW minE : Nat) (samples : List StabSample) (st : StabState) (t : String),
        stabLoop maxW minE st samples = StabOutcome.completed t →
        ∃ (st' : ChatGPT.StabState) (s : ChatGPT.StabSample), s ∈ samples ∧ s.time < maxW ∧ s.generating = false ∧
          s.articleCount = st'.lastArticleCount ∧ s.text = st'.lastResponseText ∧
          required_stable ≤ st'.stableCount + 1 ∧ 50 < s.text.length ∧
          minE ≤ s.time ∧ t = s.text) := by
  refine ⟨?_, ?_, fun maxW minE samples => stabLoop_completed maxW minE samples⟩
  · intro minE st s hbusy
    rcases hbusy with hg | hac
    · simp [stabStep, hg]
    · have hb : (s.articleCount != st.lastArticleCount) = true := bne_iff_ne.mpr hac
      simp [stabStep, hb]
  · intro minE st s st' h htext
    have htb : (s.text != st.lastResponseText) = true := bne_iff_ne.mpr htext
    have hval : stabStep minE st s = Sum.inl
        { stableCount := 0, lastResponseText := s.text,
          lastArticleCount := s.articleCount } := by
      by_cases hcond : (s.generating || (s.articleCount != st.lastArticleCount)) = true
      · simp [stabStep, hcond]
      · rw [Bool.not_eq_true] at hcond
        norm_num [stabStep, hcond, htb, required_stable]
    rw [hval] at h
    injection h with h
    rw [← h]

/-- Six-sample script for the C2 witness: one sample switching the text
to `stableText`, then five consecutive stable samples. -/
def c2Samples : List ChatGPT.StabSample :=
  [⟨false, false, 1, stableText, 20⟩, ⟨false, false, 1, stableText, 21⟩,
   ⟨false, false, 1, stableText, 22⟩, ⟨false, false, 1, stableText, 23⟩,
   ⟨false, false, 1, stableText, 24⟩, ⟨false, false, 1, stableText, 25⟩]

/-- Witness for C2: a busy sample resets a counter of 3 to 0, and a
concrete six-sample run completes with the stable text. -/
theorem chatgpt_stabilization_counter_witness :
    (stabStep 15 ⟨3, "x", 2⟩ ⟨false, true, 2, "y", 10⟩ = Sum.inl ⟨0, "y", 2⟩) ∧
    (∃ (st' : ChatGPT.StabState) (s : ChatGPT.StabSample), s ∈ c2Samples ∧ s.time < 1800 ∧ s.generating = false ∧
      s.articleCount = st'.lastArticleCount ∧ s.text = st'.lastResponseText ∧
      required_stable ≤ st'.stableCount + 1 ∧ 50 < s.text.length ∧
      15 ≤ s.time ∧ stableText = s.text) :=
  ⟨chatgpt_stabilization_counter.1 15 ⟨3, "x", 2⟩ ⟨false, true, 2, "y", 10⟩ (Or.inl rfl),
    chatgpt_stabilization_counter.2.2 1800 15 c2Samples ⟨0, "", 1⟩ stableText (by decide)⟩

/-- The baseline fields after any `wait_for_response` call: they are only
written when `_baseline_set` was still false. -/
theorem wait_for_response_snd (am : Bool) (w : Nat) (bl : Baseline) (pc : Nat)
    (ss : Nat → StartSample) (stl : List StabSample) (fe : Option String) :
    (wait_for_response am w bl pc ss stl fe).2 =
      if bl.baselineSet then bl else ⟨pc, true⟩ := by
  simp only [wait_for_response]
  repeat' split
  all_goals rfl

/-- C4: the session baseline of pre-existing response units is captured
exactly once.  From the `__init__` state (count 0, `_baseline_set`
false), the first `wait_for_response` stores the observed pre-prompt
count and sets the flag; any subsequent call leaves the stored baseline
unchanged. -/
theorem chatgpt_baseline_once :
    (∀ (am : Bool) (w pc : Nat) (ss : Nat → StartSample) (stl : List StabSample)
        (fe : Option String),
      (wait_for_response am w ⟨0, false⟩ pc ss stl fe).2 = ⟨pc, true⟩) ∧
    (∀ (am1 : Bool) (w1 pc1 : Nat) (ss1 : Nat → StartSample) (stl1 : List StabSample)
        (fe1 : Option String) (am2 : Bool) (w2 pc2 : Nat) (ss2 : Nat → StartSample)
        (stl2 : List StabSample) (fe2 : Option String),
      (wait_for_response am2 w2 (wait_for_response am1 w1 ⟨0, false⟩ pc1 ss1 stl1 fe1).2
          pc2 ss2 stl2 fe2).2 =
        (wait_for_response am1 w1 ⟨0, false⟩ pc1 ss1 stl1 fe1).2) := by
  constructor
  · intro am w pc ss stl fe
    rw [wait_for_response_snd]
    rfl
  · intro am1 w1 pc1 ss1 stl1 fe1 am2 w2 pc2 ss2 stl2 fe2
    rw [wait_for_response_snd, wait_for_response_snd]
    rfl

/-- Phase 1 never reports a start when, throughout the polling window, no
generation indicator fires and the article count never exceeds the
pre-prompt count. -/
theorem generationStartWait_no_fire (pc : Nat) (ss : Nat → StartSample) :
    ∀ (fuel i : Nat),
      (∀ j, j < fuel →
        (ss (i + j)).generating = false ∧ (ss (i + j)).articleCount ≤ pc) →
      generationStartWait pc ss i fuel ≠ StartOutcome.started := by
  intro fuel
  induction fuel with
  | zero => intro i h; simp [generationStartWait]
  | succ n ih =>
    intro i h
    obtain ⟨h0g, h0c⟩ := h 0 (Nat.succ_pos n)
    rw [Nat.add_zero] at h0g h0c
    unfold generationStartWait
    by_cases hs : (ss i).shutdown
    · simp [hs]
    · rw [if_neg hs, if_neg (by simp [h0g]), if_neg (by omega)]
      exact ih (i + 1) (fun j hj => by
        have hsj := h (j + 1) (by omega)
        rwa [show i + (j + 1) = i + 1 + j by omega] at hsj)

/-- Oracle for `ChatGPTWebAgent.navigate_to_new_chat`: whether
`page.goto` (and the title read) succeeded, whether the landing URL is on
`chatgpt.com`, the `get_state()` classification, and whether the chat
input was found on the initial load or after the one retry reload. -/
structure NavEnv where
  gotoOk : Bool
  onChatGPTDomain : Bool
  state : AgentState
  inputAttached : Bool
  inputAttachedAfterReload : Bool
  deriving DecidableEq, Repr

/-- `ChatGPTWebAgent.navigate_to_new_chat`: first resets the session
baseline fields for the new conversation, then returns true when the page
loaded — including when it was redirected off-domain to an auth page or
`get_state()` reports AUTH_REQUIRED (the engine's auth-wait loop handles
login) — and false only when `goto` raised or the chat input never
appeared even after a reload. -/
def navigate_to_new_chat (env : NavEnv) (_bl : Baseline) : Bool × Baseline :=
  let bl' : Baseline := { baselineArticleCount := 0, baselineSet := false }
  if !env.gotoOk then (false, bl')
  else if !env.onChatGPTDomain then (true, bl')
  else if env.state = AgentState.AUTH_REQUIRED then (true, bl')
  else if env.inputAttached then (true, bl')
  else if env.inputAttachedAfterReload then (true, bl')
  else (false, bl')

end ChatGPT

/-! ## Claude agent (`agents/claude.py`) -/

namespace Claude

/-- One iteration's oracle for `ClaudeWebAgent.wait_for_response`: the
shutdown check at the loop top, the `get_state()` sample after the
`check_interval` sleep, the count of `'[class*="prose"]'` elements used
by the fallback start detection, the second `get_state()` after the
1-second settle, and `_extract_last_response()`. -/
structure WaitSample where
  shutdown : Bool
  state : AgentState
  proseCount : Nat
  finalState : AgentState
  extracted : Option String
  deriving DecidableEq, Repr

/-- The polling loop of `ClaudeWebAgent.wait_for_response`.  The loop
runs `while elapsed < max_wait_per_prompt`, and `elapsed` advances by
`check_interval` before each `get_state()` sample.  A RUNNING state sets
`saw_running`; RATE_LIMITED returns `None`; READY with `saw_running`
still false consults the prose-element count (more than one element also
sets `saw_running`) and otherwise continues; READY with `saw_running`
set settles for a second and, if still READY, returns the extracted
response.  Exhausting the budget returns `None`.  `fuel` bounds the
recursion; the wrapper passes `maxWait`, which is exact whenever
`check_interval ≥ 1` (with `check_interval = 0` the Python loop would
never terminate). -/
def waitLoop (maxWait checkInterval : Nat) (samples : Nat → WaitSample) :
    Nat → Nat → Nat → Bool → Option String
  | 0, _, _, _ => none
  | fuel + 1, i, elapsed, sawRunning =>
    if elapsed < maxWait then
      let s := samples i
      if s.shutdown then none
      else
        let elapsed' := elapsed + checkInterval
        if s.state = AgentState.RUNNING then
          waitLoop maxWait checkInterval samples fuel (i + 1) elapsed' true
        else if s.state = AgentState.RATE_LIMITED then none
        else if s.state = AgentState.READY then
          let sawRunning' := sawRunning || decide (1 < s.proseCount)
          if sawRunning' then
            if s.finalState = AgentState.READY then s.extracted
            else waitLoop maxWait checkInterval samples fuel (i + 1) elapsed' sawRunning'
          else waitLoop maxWait checkInterval samples fuel (i + 1) elapsed' sawRunning'
        else waitLoop maxWait checkInterval samples fuel (i + 1) elapsed' sawRunning
    else none

/-- `ClaudeWebAgent.wait_for_response`: run the polling loop from
`elapsed = 0` with `saw_running = false`. -/
def wait_for_response (maxWait checkInterval : Nat)
    (samples : Nat → WaitSample) : Option String :=
  waitLoop maxWait checkInterval samples maxWait 0 0 false

/-- Oracle for `ClaudeWebAgent.navigate_to_new_chat`: whether `page.goto`
(and the following sleep) succeeded, and the `get_state()` classification
after navigation.  The feature-toggle helpers called afterwards catch
their own exceptions and do not affect the return value. -/
structure NavEnv where
  gotoOk : Bool
  state : AgentState
  deriving DecidableEq, Repr

/-- `ClaudeWebAgent.navigate_to_new_chat`: returns false when navigation
raised, and also returns false when `get_state()` reports AUTH_REQUIRED
("please log in manually"); otherwise true. -/
def navigate_to_new_chat (env : NavEnv) : Bool :=
  if !env.gotoOk then false
  else if env.state = AgentState.AUTH_REQUIRED then false
  else true

/-- If no sample ever shows RUNNING and the prose count never exceeds
one, `saw_running` stays false and the loop can only end in `None`
(rate-limit, shutdown, or budget exhaustion). -/
theorem waitLoop_never_starts (maxW ci : Nat) (samples : Nat → WaitSample)
    (h : ∀ i, (samples i).state ≠ AgentState.RUNNING ∧ (samples i).proseCount ≤ 1) :
    ∀ (fuel i elapsed : Nat),
      waitLoop maxW ci samples fuel i elapsed false = none := by
  intro fuel
  induction fuel with
  | zero => intro i e; rfl
  | succ n ih =>
    intro i e
    obtain ⟨hrun, hprose⟩ := h i
    unfold waitLoop
    split
    · by_cases hs : (samples i).shutdown
      · simp [hs]
      · rw [if_neg hs, if_neg hrun]
        by_cases hrl : (samples i).state = AgentState.RATE_LIMITED
        · simp [hrl]
        · rw [if_neg hrl]
          by_cases hrdy : (samples i).state = AgentState.READY
          · rw [if_pos hrdy]
            have hsw : (false || decide (1 < (samples i).proseCount)) = false := by
              simp
              omega
            simp only [hsw, Bool.false_eq_true, if_false]
            exact ih (i + 1) _
          · rw [if_neg hrdy]
            exact ih (i + 1) _
    · rfl

end Claude

/-- Scripted Claude page states for the C3 counterexample: for the first
60 polls (2 s apart, covering the first 120 s) the page is READY with a
single prose block and no generation indicator; poll 60 (at 122 s) shows
RUNNING; poll 61 settles READY twice and extracts the response. -/
def c3ClaudeScript : Nat → Claude.WaitSample := fun i =>
  if i < 60 then ⟨false, AgentState.READY, 1, AgentState.READY, none⟩
  else if i = 60 then ⟨false, AgentState.RUNNING, 1, AgentState.READY, none⟩
  else ⟨false, AgentState.READY, 1, AgentState.READY, some stableText⟩

/-- C3 counterexample: with the default Claude configuration
(`max_wait_per_prompt = 1800`, `check_interval = 2`), a run in which no
generation indicator fires and the response-unit count never exceeds one
during the whole 120-second start window still returns a response (not
`none`): the Claude agent's `wait_for_response` has no bounded start
wait — it keeps polling for generation start for the entire
`max_wait_per_prompt` window. -/
theorem claude_start_bound_counterexample :
    (∀ i, i < 60 → (c3ClaudeScript i).state ≠ AgentState.RUNNING ∧
        (c3ClaudeScript i).proseCount ≤ 1 ∧ (c3ClaudeScript i).shutdown = false) ∧
    Claude.wait_for_response 1800 2 c3ClaudeScript = some stableText := by
  constructor
  · decide
  · decide

/-- C3 amended: generation-start confirmation.  For the ChatGPT agent the
claim holds as stated: when, during the bounded start window (60 polls,
up to 120 s), no generation indicator fires and the article count never
exceeds the pre-prompt count, `wait_for_response` returns `none` — for
any stabilization-phase samples, i.e. without the stabilization phase
deciding anything.  The Claude agent has no 120-second start bound; it
returns `none` when generation start is never observed during the whole
`max_wait_per_prompt` window. -/
theorem generation_start_hard_fail :
    (∀ (am : Bool) (w : Nat) (bl : ChatGPT.Baseline) (pc : Nat)
        (ss : Nat → ChatGPT.StartSample) (stl : List ChatGPT.StabSample)
        (fe : Option String),
      (∀ i, i < 60 → (ss i).generating = false ∧ (ss i).articleCount ≤ pc) →
      (ChatGPT.wait_for_response am w bl pc ss stl fe).1 = none) ∧
    (∀ (w ci : Nat) (samples : Nat → Claude.WaitSample),
      (∀ i, (samples i).state ≠ AgentState.RUNNING ∧ (samples i).proseCount ≤ 1) →
      Claude.wait_for_response w ci samples = none) := by
  constructor
  · intro am w bl pc ss stl fe h
    have hns := ChatGPT.generationStartWait_no_fire pc ss 60 0
      (fun j hj => by simpa using h j hj)
    cases hgs : ChatGPT.generationStartWait pc ss 0 60 with
    | started => exact absurd hgs hns
    | shutdownHit => simp [ChatGPT.wait_for_response, hgs]
    | notStarted => simp [ChatGPT.wait_for_response, hgs]
  · intro w ci samples h
    exact Claude.waitLoop_never_starts w ci samples h w 0 0

/-- Witness for the amended C3: a ChatGPT run whose start window never
fires returns `none`, and a Claude run that never observes generation
start returns `none`. -/
theorem generation_start_hard_fail_witness :
    (ChatGPT.wait_for_response true 1800 ⟨0, false⟩ 0 (fun _ => ⟨false, false, 0⟩)
        [] none).1 = none ∧
    Claude.wait_for_response 1800 2
      (fun _ => ⟨false, AgentState.READY, 1, AgentState.READY, none⟩) = none :=
  ⟨generation_start_hard_fail.1 true 1800 ⟨0, false⟩ 0 (fun _ => ⟨false, false, 0⟩)
      [] none (fun i _ => ⟨rfl, Nat.le_refl 0⟩),
    generation_start_hard_fail.2 1800 2
      (fun _ => ⟨false, AgentState.READY, 1, AgentState.READY, none⟩)
      (fun _ => ⟨by simp, by simp⟩)⟩

/-- C8 counterexample: on a page that loaded but requires authentication,
the Claude agent's `navigate_to_new_chat` returns false (it logs
"Authentication required - please log in manually" and bails out), not
true as the claim states for every provider agent. -/
theorem claude_navigate_auth_counterexample :
    Claude.navigate_to_new_chat ⟨true, AgentState.AUTH_REQUIRED⟩ = false := by
  decide

/-- C8 amended: the ChatGPT agent's `navigate_to_new_chat` returns true
whenever the page loaded, even when authentication is required
(off-domain auth redirect or AUTH_REQUIRED state — the engine's auth-wait
loop handles login), and returns false only on hard navigation failure
(`goto` raised, or the chat content never loaded); the Claude agent
instead returns false on an AUTH_REQUIRED page, treating it like a
navigation failure.  Both agents return false when navigation raises. -/
theorem navigate_auth_behaviour :
    (∀ (env : ChatGPT.NavEnv) (bl : ChatGPT.Baseline), env.gotoOk = true →
      (env.onChatGPTDomain = false ∨ env.state = AgentState.AUTH_REQUIRED) →
      (ChatGPT.navigate_to_new_chat env bl).1 = true) ∧
    (∀ (env : ChatGPT.NavEnv) (bl : ChatGPT.Baseline),
      (ChatGPT.navigate_to_new_chat env bl).1 = false →
      env.gotoOk = false ∨
        (env.onChatGPTDomain = true ∧ env.state ≠ AgentState.AUTH_REQUIRED ∧
          env.inputAttached = false ∧ env.inputAttachedAfterReload = false)) ∧
    (∀ (env : Claude.NavEnv), env.gotoOk = true →
      env.state = AgentState.AUTH_REQUIRED →
      Claude.navigate_to_new_chat env = false) ∧
    (∀ (env : Claude.NavEnv), env.gotoOk = false →
      Claude.navigate_to_new_chat env = false) := by
  refine ⟨?_, ?_, ?_, ?_⟩
  · intro env bl hgo hauth
    rcases hauth with hdom | hstate
    · simp [ChatGPT.navigate_to_new_chat, hgo, hdom]
    · simp [ChatGPT.navigate_to_new_chat, hgo, hstate]
  · intro env bl h
    by_cases hgo : env.gotoOk
    · right
      by_cases hdom : env.onChatGPTDomain
      · by_cases hstate : env.state = AgentState.AUTH_REQUIRED
        · simp [ChatGPT.navigate_to_new_chat, hgo, hdom, hstate] at h
        · by_cases hin : env.inputAttached
          · simp [ChatGPT.navigate_to_new_chat, hgo, hdom, hstate, hin] at h
          · by_cases hin2 : env.inputAttachedAfterReload
            · simp [ChatGPT.navigate_to_new_chat, hgo, hdom, hstate, hin, hin2] at h
            · exact ⟨hdom, hstate, by simpa using hin, by simpa using hin2⟩
      · simp [ChatGPT.navigate_to_new_chat, hgo, hdom] at h
    · left
      simpa using hgo
  · intro env hgo hstate
    simp [Claude.navigate_to_new_chat, hgo, hstate]
  · intro env hgo
    simp [Claude.navigate_to_new_chat, hgo]

/-- Witness for the amended C8: concrete auth-required pages for both
agents, and concrete hard navigation failures. -/
theorem navigate_auth_behaviour_witness :
    (ChatGPT.navigate_to_new_chat ⟨true, true, AgentState.AUTH_REQUIRED, false, false⟩
        ⟨3, true⟩).1 = true ∧
    ((⟨false, true, AgentState.READY, true, true⟩ : ChatGPT.NavEnv).gotoOk = false ∨
      ((⟨false, true, AgentState.READY, true, true⟩ : ChatGPT.NavEnv).onChatGPTDomain = true ∧
        (⟨false, true, AgentState.READY, true, true⟩ : ChatGPT.NavEnv).state ≠ AgentState.AUTH_REQUIRED ∧
        (⟨false, true, AgentState.READY, true, true⟩ : ChatGPT.NavEnv).inputAttached = false ∧
        (⟨false, true, AgentState.READY, true, true⟩ : ChatGPT.NavEnv).inputAttachedAfterReload = false)) ∧
    Claude.navigate_to_new_chat ⟨true, AgentState.AUTH_REQUIRED⟩ = false ∧
    Claude.navigate_to_new_chat ⟨false, AgentState.READY⟩ = false :=
  ⟨navigate_auth_behaviour.1 ⟨true, true, AgentState.AUTH_REQUIRED, false, false⟩
      ⟨3, true⟩ rfl (Or.inr rfl),
    navigate_auth_behaviour.2.1 ⟨false, true, AgentState.READY, true, true⟩
      ⟨0, false⟩ (by decide),
    navigate_auth_behaviour.2.2.1 ⟨true, AgentState.AUTH_REQUIRED⟩ rfl rfl,
    navigate_auth_behaviour.2.2.2 ⟨false, AgentState.READY⟩ rfl⟩

end AutoWebPrompt
